import Mathlib

/-!
Shallow embedding of the vectra-vtu-backend transaction lifecycle core:
the `Transaction` model and its status state machine (`src/models.py`),
the status-change service (`src/services/transaction_service.py`), the
vendor-status normalization (`src/services/iacafe.py`), the purchase
intake routes (`src/services/routes/airtime.py`, `data.py`), the webhook
ingestion route (`src/services/routes/webhooks.py`) and the
requery/refund route (`src/services/routes/transactions.py`).

Conventions of the embedding:
* Python `datetime` values are modelled as `Int` (seconds); `timedelta`
  comparisons become integer comparisons on the difference.
* Python `float` amounts are modelled as `Rat`; only sign comparisons
  (`amount <= 0`) matter to the embedded code paths.
* A raised Python exception is modelled with `Except String`; a
  `try/except` block becomes a `match` on the `Except` value.
* The SQLAlchemy session is modelled by explicit state passing: each
  route function takes the stored row(s) it queries and returns the
  stored state after its commits/rollbacks.
-/

namespace Vectra

/-- The `TransactionStatus` enum from `src/models.py`.  The Python enum also
has a member `PENDING = "INITIATED"` which, sharing the value of
`INITIATED`, is an alias of `INITIATED`, not a sixth state; the alias shows up in
`TransactionStatus.value` and in `transactionStatusOfValue` below. -/
inductive TransactionStatus where
  | INITIATED
  | PROCESSING
  | SUCCESS
  | FAILED
  | REFUNDED
deriving DecidableEq, Repr

/-- The value string of each enum member (the alias PENDING has value INITIATED). -/
def TransactionStatus.value : TransactionStatus → String
  | .INITIATED => "INITIATED"
  | .PROCESSING => "PROCESSING"
  | .SUCCESS => "SUCCESS"
  | .FAILED => "FAILED"
  | .REFUNDED => "REFUNDED"

/-- Python `TransactionStatus(value)` enum lookup by value.  The string
PENDING is not a member value (the alias member PENDING has the value
INITIATED), so looking it up raises ValueError, modelled as `.error`. -/
def transactionStatusOfValue (s : String) : Except String TransactionStatus :=
  if s = "INITIATED" then .ok .INITIATED
  else if s = "PROCESSING" then .ok .PROCESSING
  else if s = "SUCCESS" then .ok .SUCCESS
  else if s = "FAILED" then .ok .FAILED
  else if s = "REFUNDED" then .ok .REFUNDED
  else .error (s ++ " is not a valid TransactionStatus")

/-- The `ServiceType` enum from `src/models.py`. -/
inductive ServiceType where
  | airtime
  | data
deriving DecidableEq, Repr

/-- The `NetworkType` enum from `src/models.py` (ETISALAT has value 9mobile). -/
inductive NetworkType where
  | mtn
  | glo
  | airtel
  | etisalat
deriving DecidableEq, Repr

/-- Python `NetworkType(value)` lookup by value string. -/
def networkTypeOfValue (s : String) : Except String NetworkType :=
  if s = "mtn" then .ok .mtn
  else if s = "glo" then .ok .glo
  else if s = "airtel" then .ok .airtel
  else if s = "9mobile" then .ok .etisalat
  else .error (s ++ " is not a valid NetworkType")

/-- The `Transaction` row of `src/models.py`, with the columns the
lifecycle code reads or writes.  `provider_response` (a JSON column) is
modelled as an association list of string key/value pairs. -/
structure Transaction where
  requestId : String
  userId : Option String
  service : ServiceType
  network : NetworkType
  phone : String
  amount : Rat
  amountCharged : Rat
  status : TransactionStatus
  iacafeReference : Option String
  iacafeStatus : Option String
  errorMessage : Option String
  providerResponse : Option (List (String × String))
  webhookPayload : Option (List (String × String))
  webhookReceivedAt : Option Int
  webhookDeliveryId : Option String
  createdAt : Int
  updatedAt : Int
deriving DecidableEq, Repr

/-- The dict `_ALLOWED_STATUS_TRANSITIONS` from `src/models.py`, keyed by status
value string; `none` models a key absent from the dict. -/
def allowedStatusTransitions (s : String) : Option (List String) :=
  if s = "INITIATED" then some ["PROCESSING"]
  else if s = "PROCESSING" then some ["SUCCESS", "FAILED"]
  else if s = "SUCCESS" then some ["REFUNDED"]
  else if s = "FAILED" then some []
  else if s = "REFUNDED" then some []
  else none

/-- The set of valid status value strings (`{s.value for s in TransactionStatus}`). -/
def transactionStatusValues : List String :=
  ["INITIATED", "PROCESSING", "SUCCESS", "FAILED", "REFUNDED"]

/-- The listener `_validate_status_transition` from `src/models.py`: the SQLAlchemy
`set` event listener on `Transaction.status`.  `oldvalue = none` models
NO_VALUE (initial assignment); both values are compared by their
value strings.  A raised ValueError is `.error`.  The Python message for
the initial-assignment error quotes the word INITIATED; the quotes are
dropped here. -/
def validateStatusTransition (oldvalue : Option String) (value : TransactionStatus) :
    Except String TransactionStatus :=
  let new := value.value
  if new ∉ transactionStatusValues then
    .error ("Invalid status value: " ++ new)
  else
    match oldvalue with
    | none =>
        if new ≠ "INITIATED" then .error "Initial status must be INITIATED"
        else .ok value
    | some old =>
        if old = new then .ok value
        else
          match allowedStatusTransitions old with
          | none => .error ("Unknown current status: " ++ old)
          | some allowed =>
              if new ∉ allowed then
                .error ("Invalid status transition: " ++ old ++ " -> " ++ new)
              else .ok value

/-- A validated assignment `transaction.status = s` on an existing row,
followed by a commit.  The listener fires with the current status as
oldvalue; on success SQLAlchemy updates the row (bumping updated_at
via onupdate when the value actually changed), and on a raised
ValueError the row is untouched.  Setting the same enum member again
produces no net change, so no UPDATE (and no `updated_at` bump) is
issued. -/
def setStatus (t : Transaction) (s : TransactionStatus) (now : Int) :
    Except String Transaction :=
  match validateStatusTransition (some t.status.value) s with
  | .error e => .error e
  | .ok v =>
      if v.value = t.status.value then .ok t
      else .ok { t with status := v, updatedAt := now }

/-- The function `change_transaction_status` from `src/services/transaction_service.py`:
normalizes the argument to a `TransactionStatus` (here already one),
assigns it through the model-level guard, and commits. -/
def changeTransactionStatus (t : Transaction) (newStatus : TransactionStatus)
    (now : Int) : Except String Transaction :=
  setStatus t newStatus now

/-- The stored row after an attempted status change: on a raised
ValueError nothing was flushed, so the stored row is the old one. -/
def storedAfterChange (t : Transaction) (newStatus : TransactionStatus)
    (now : Int) : Transaction :=
  match changeTransactionStatus t newStatus now with
  | .ok t' => t'
  | .error _ => t

/-- Whether `(fromStatus, toStatus)` is an edge of the §4.2 transition
table (`_ALLOWED_STATUS_TRANSITIONS`). -/
def allowedEdge (fromStatus toStatus : TransactionStatus) : Prop :=
  toStatus.value ∈ (allowedStatusTransitions fromStatus.value).getD []

instance (a b : TransactionStatus) : Decidable (allowedEdge a b) :=
  inferInstanceAs (Decidable (b.value ∈ (allowedStatusTransitions a.value).getD []))

/-- The method `IACafeService.normalize_status` from `src/services/iacafe.py`:
the lookup `status_map.get(iacafe_status, ...)` with default PENDING. -/
def normalizeStatus (iacafeStatus : String) : String :=
  if iacafeStatus = "processing-api" then "PENDING"
  else if iacafeStatus = "completed-api" then "SUCCESS"
  else if iacafeStatus = "refunded" then "REFUNDED"
  else if iacafeStatus = "unprocessable" then "FAILED"
  else if iacafeStatus = "422" then "FAILED"
  else "PENDING"

/-! ### SHA-256 and HMAC-SHA256

The webhook route verifies signatures with `hmac.new(secret, message,
hashlib.sha256).hexdigest()` and `hmac.compare_digest`.  The hash and
MAC below are the standard FIPS 180-4 / RFC 2104 algorithms those
library calls compute, embedded over byte lists (`List Nat`, each
element below 256) with 32-bit words as `Nat` reduced mod `2 ^ 32`. -/

/-- Reduction of a natural number to a 32-bit word. -/
def w32 (n : Nat) : Nat := n % 4294967296

/-- Right rotation of a 32-bit word by `n` places. -/
def rotr32 (n x : Nat) : Nat :=
  w32 (Nat.lor (Nat.shiftRight x n) (Nat.shiftLeft x (32 - n)))

/-- Logical right shift of a 32-bit word. -/
def shr32 (n x : Nat) : Nat := Nat.shiftRight x n

/-- Three-way XOR. -/
def xor3 (a b c : Nat) : Nat := Nat.xor (Nat.xor a b) c

/-- Big sigma-0 of SHA-256. -/
def bsig0 (x : Nat) : Nat := xor3 (rotr32 2 x) (rotr32 13 x) (rotr32 22 x)

/-- Big sigma-1 of SHA-256. -/
def bsig1 (x : Nat) : Nat := xor3 (rotr32 6 x) (rotr32 11 x) (rotr32 25 x)

/-- Small sigma-0 of SHA-256. -/
def ssig0 (x : Nat) : Nat := xor3 (rotr32 7 x) (rotr32 18 x) (shr32 3 x)

/-- Small sigma-1 of SHA-256. -/
def ssig1 (x : Nat) : Nat := xor3 (rotr32 17 x) (rotr32 19 x) (shr32 10 x)

/-- Choice function of SHA-256 (complement taken within 32 bits). -/
def chf (x y z : Nat) : Nat := Nat.xor (Nat.land x y) (Nat.land (4294967295 - w32 x) z)

/-- Majority function of SHA-256. -/
def majf (x y z : Nat) : Nat := xor3 (Nat.land x y) (Nat.land x z) (Nat.land y z)

/-- Round constants of SHA-256. -/
def k256 : List Nat :=
  [1116352408, 1899447441, 3049323471, 3921009573, 961987163, 1508970993,
   2453635748, 2870763221, 3624381080, 310598401, 607225278, 1426881987,
   1925078388, 2162078206, 2614888103, 3248222580, 3835390401, 4022224774,
   264347078, 604807628, 770255983, 1249150122, 1555081692, 1996064986,
   2554220882, 2821834349, 2952996808, 3210313671, 3336571891, 3584528711,
   113926993, 338241895, 666307205, 773529912, 1294757372, 1396182291,
   1695183700, 1986661051, 2177026350, 2456956037, 2730485921, 2820302411,
   3259730800, 3345764771, 3516065817, 3600352804, 4094571909, 275423344,
   430227734, 506948616, 659060556, 883997877, 958139571, 1322822218,
   1537002063, 1747873779, 1955562222, 2024104815, 2227730452, 2361852424,
   2428436474, 2756734187, 3204031479, 3329325298]

/-- Working state of the SHA-256 compression function. -/
structure Sha256State where
  a : Nat
  b : Nat
  c : Nat
  d : Nat
  e : Nat
  f : Nat
  g : Nat
  h : Nat
deriving DecidableEq, Repr

/-- Initial hash value of SHA-256. -/
def sha256Init : Sha256State :=
  ⟨1779033703, 3144134277, 1013904242, 2773480762, 1359893119, 2600822924, 528734635, 1541459225⟩

/-- One round of the SHA-256 compression function. -/
def sha256Round (s : Sha256State) (kw : Nat × Nat) : Sha256State :=
  let t1 := w32 (s.h + bsig1 s.e + chf s.e s.f s.g + kw.1 + kw.2)
  let t2 := w32 (bsig0 s.a + majf s.a s.b s.c)
  ⟨w32 (t1 + t2), s.a, s.b, s.c, w32 (s.d + t1), s.e, s.f, s.g⟩

/-- Big-endian 32-bit words from a byte list. -/
def toWords : List Nat → List Nat
  | b0 :: b1 :: b2 :: b3 :: rest => (((b0 * 256 + b1) * 256 + b2) * 256 + b3) :: toWords rest
  | _ => []

/-- Message-schedule extension: append `fuel` further words. -/
def extendWords : List Nat → Nat → List Nat
  | ws, 0 => ws
  | ws, fuel + 1 =>
      let i := ws.length
      let v := w32 (ssig1 (ws.getD (i - 2) 0) + ws.getD (i - 7) 0 +
                    ssig0 (ws.getD (i - 15) 0) + ws.getD (i - 16) 0)
      extendWords (ws ++ [v]) fuel

/-- Compression of one 64-byte block into the running hash state. -/
def compressBlock (s : Sha256State) (block : List Nat) : Sha256State :=
  let ws := extendWords (toWords block) 48
  let r := (k256.zip ws).foldl sha256Round s
  ⟨w32 (s.a + r.a), w32 (s.b + r.b), w32 (s.c + r.c), w32 (s.d + r.d),
   w32 (s.e + r.e), w32 (s.f + r.f), w32 (s.g + r.g), w32 (s.h + r.h)⟩

/-- Big-endian 8-byte encoding of a length value. -/
def be8 (n : Nat) : List Nat :=
  [n / 72057594037927936 % 256, n / 281474976710656 % 256, n / 1099511627776 % 256,
   n / 4294967296 % 256, n / 16777216 % 256, n / 65536 % 256, n / 256 % 256, n % 256]

/-- Big-endian 4-byte encoding of a 32-bit word. -/
def be4 (n : Nat) : List Nat := [n / 16777216 % 256, n / 65536 % 256, n / 256 % 256, n % 256]

/-- Merkle-Damgard padding of SHA-256: a 0x80 byte, zeros to 56 mod 64,
then the bit length in 8 big-endian bytes. -/
def padMessage (msg : List Nat) : List Nat :=
  let len := msg.length
  msg ++ [128] ++ List.replicate ((119 - len % 64) % 64) 0 ++ be8 (8 * len)

/-- Split into 64-byte chunks (fuelled recursion; fuel at least the length). -/
def chunks64 : Nat → List Nat → List (List Nat)
  | 0, _ => []
  | _, [] => []
  | fuel + 1, xs => xs.take 64 :: chunks64 fuel (xs.drop 64)

/-- SHA-256 of a byte list, as the 32-byte digest. -/
def sha256 (msg : List Nat) : List Nat :=
  let padded := padMessage msg
  let final := (chunks64 padded.length padded).foldl compressBlock sha256Init
  be4 final.a ++ be4 final.b ++ be4 final.c ++ be4 final.d ++
  be4 final.e ++ be4 final.f ++ be4 final.g ++ be4 final.h

/-- HMAC-SHA256 (RFC 2104) of a message under a key, block size 64. -/
def hmacSha256 (key msg : List Nat) : List Nat :=
  let k0 := if key.length > 64 then sha256 key else key
  let kp := k0 ++ List.replicate (64 - k0.length) 0
  let ipadded := kp.map (fun b => Nat.xor b 54)
  let opadded := kp.map (fun b => Nat.xor b 92)
  sha256 (opadded ++ sha256 (ipadded ++ msg))

/-- Lower-case hex digit of a value below 16. -/
def hexDigit (n : Nat) : Char :=
  if n < 10 then Char.ofNat (48 + n) else Char.ofNat (87 + n)

/-- Lower-case hex rendering of a byte list (the Python hexdigest). -/
def hexOfBytes (bs : List Nat) : String :=
  ⟨bs.foldr (fun b acc => hexDigit (b / 16) :: hexDigit (b % 16) :: acc) []⟩

/-- UTF-8 encoding of one code point. -/
def utf8EncodeCharNat (c : Nat) : List Nat :=
  if c < 128 then [c]
  else if c < 2048 then [192 + c / 64, 128 + c % 64]
  else if c < 65536 then [224 + c / 4096, 128 + c / 64 % 64, 128 + c % 64]
  else [240 + c / 262144, 128 + c / 4096 % 64, 128 + c / 64 % 64, 128 + c % 64]

/-- UTF-8 bytes of a string (Python `str.encode()`). -/
def utf8Bytes (s : String) : List Nat :=
  s.toList.foldr (fun c acc => utf8EncodeCharNat c.toNat ++ acc) []

/-- The function `verify_webhook_signature` from
`src/services/routes/webhooks.py`: the expected signature is the
hexdigest of HMAC-SHA256 over `timestamp.encode() + b"." + raw_body`
under the configured secret, compared with `hmac.compare_digest`
(equality, in constant time). -/
def verifyWebhookSignature (timestamp signature : String) (rawBody : List Nat)
    (secret : String) : Bool :=
  let message := utf8Bytes timestamp ++ [46] ++ rawBody
  let expectedSignature := hexOfBytes (hmacSha256 (utf8Bytes secret) message)
  expectedSignature == signature


/-! ### Webhook ingestion (`src/services/routes/webhooks.py`) -/

/-- Truthiness of an optional header or payload string in Python:
present and non-empty. -/
def truthyStr : Option String → Bool
  | none => false
  | some s => s != ""

/-- The nested `data` object of the webhook body, with the keys
`handle_iacafe_webhook` reads (`data.get(...)`); `none` models an
absent key. -/
structure WebhookData where
  requestId : Option String
  status : Option String
  reference : Option String
  errorMessage : Option String
deriving DecidableEq, Repr

/-- The parsed webhook JSON body: the route requires an `event` key and
a `data` key; `none` models an absent key. -/
structure WebhookPayload where
  event : Option String
  data : Option WebhookData
deriving DecidableEq, Repr

/-- An inbound webhook HTTP request: the four `X-VTU-*` headers
(`none` models an absent header), the raw body bytes used for
signature verification, and the result of `request.get_json()`
(`none` models a body that fails to parse as JSON). -/
structure WebhookRequest where
  signature : Option String
  timestamp : Option String
  event : Option String
  deliveryId : Option String
  rawBody : List Nat
  payload : Option WebhookPayload
deriving DecidableEq, Repr

/-- Event types accepted by the route (`supported_events`). -/
def supportedEvents : List String :=
  ["transaction.created", "transaction.status_changed"]

/-- Validation prefix of `handle_iacafe_webhook`, covering every early
`return` before the transaction is queried: required headers, optional
signature verification against the configured secret, JSON parsing,
payload structure, the supported-event filter, and the presence of
`data.request_id`.  Returns the HTTP status code of the early response,
or the delivery id, payload, data object and request id on fall-through.
None of these paths touches the stored transaction. -/
def webhookPreCheck (secret : Option String) (req : WebhookRequest) :
    Except Nat (String × WebhookPayload × WebhookData × String) :=
  match req.signature, req.timestamp, req.event, req.deliveryId with
  | some signature, some timestamp, some event, some deliveryId =>
      if signature = "" ∨ timestamp = "" ∨ event = "" ∨ deliveryId = "" then
        .error 400
      else
        let authorized : Except Nat Unit :=
          match secret with
          | some sec =>
              if verifyWebhookSignature timestamp signature req.rawBody sec then .ok ()
              else .error 401
          | none => .ok ()
        match authorized with
        | .error code => .error code
        | .ok _ =>
            match req.payload with
            | none => .error 400
            | some payload =>
                match payload.event, payload.data with
                | some ev, some data =>
                    if ev ∉ supportedEvents then .error 200
                    else
                      match data.requestId with
                      | some requestId =>
                          if requestId = "" then .error 400
                          else .ok (deliveryId, payload, data, requestId)
                      | none => .error 400
                | _, _ => .error 400
  | _, _, _, _ => .error 400

/-- Application of an accepted webhook delivery to the stored
transaction, `handle_iacafe_webhook` after its validation prefix.  The
argument `txn` is the row found by `request_id` (`none` when the query
returns nothing).  Returns the HTTP status code and the stored row
afterwards.  Status transitions go through
`change_transaction_status`; a transition error is caught and logged,
never re-raised, and the payload, delivery id and receipt timestamp are
then persisted regardless. -/
def webhookApply (deliveryId : String) (payload : WebhookPayload)
    (data : WebhookData) (txn : Option Transaction) (now : Int) :
    Nat × Option Transaction :=
  match txn with
  | none => (200, none)
  | some t =>
      if t.webhookDeliveryId = some deliveryId then (200, some t)
      else if t.status = .SUCCESS ∨ t.status = .FAILED then (200, some t)
      else
        let t1 :=
          match data.status with
          | some s =>
              if s ≠ "" then
                let t0 := { t with iacafeStatus := some s }
                let normalized := normalizeStatus s
                if normalized = "SUCCESS" then
                  match changeTransactionStatus t0 .SUCCESS now with
                  | .ok tu => tu
                  | .error _ => t0
                else if normalized = "REFUNDED" then
                  match changeTransactionStatus t0 .REFUNDED now with
                  | .ok tu => tu
                  | .error _ => t0
                else if normalized = "FAILED" then
                  match changeTransactionStatus t0 .FAILED now with
                  | .ok tu => tu
                  | .error _ => t0
                else t0
              else t
          | none => t
        let t2 :=
          { t1 with
            webhookPayload := some [("event", (payload.event.getD "")),
                                    ("request_id", (data.requestId.getD "")),
                                    ("status", (data.status.getD "")),
                                    ("reference", (data.reference.getD "")),
                                    ("error_message", (data.errorMessage.getD ""))],
            webhookReceivedAt := some now,
            webhookDeliveryId := some deliveryId,
            iacafeReference := if truthyStr data.reference then data.reference
                               else t1.iacafeReference,
            errorMessage := match data.errorMessage with
                            | some e => some e
                            | none => t1.errorMessage,
            updatedAt := now }
        (200, some t2)

/-- The route `handle_iacafe_webhook` from
`src/services/routes/webhooks.py`: validation prefix, then application
to the stored row.  `txn` is the transaction whose `request_id` equals
the request id carried in the webhook body, if any; the route queries
no other row. -/
def handleIacafeWebhook (secret : Option String) (req : WebhookRequest)
    (txn : Option Transaction) (now : Int) : Nat × Option Transaction :=
  match webhookPreCheck secret req with
  | .error code => (code, txn)
  | .ok (deliveryId, payload, data, _) => webhookApply deliveryId payload data txn now


/-- Known-answer check of the embedded hash: SHA-256 of the ASCII
string abc equals the FIPS 180-4 reference digest. -/
theorem sha256_known_answer :
    sha256 [97, 98, 99] =
      [186, 120, 22, 191, 143, 1, 207, 234,
       65, 65, 64, 222, 93, 174, 34, 35,
       176, 3, 97, 163, 150, 23, 122, 156,
       180, 16, 255, 97, 242, 0, 21, 173] := by
  decide

set_option maxRecDepth 40000 in
/-- Known-answer check of the embedded MAC: the RFC 4231-style test of
HMAC-SHA256 with key "key" over the quick-brown-fox sentence. -/
theorem hmacSha256_known_answer :
    hexOfBytes (hmacSha256 (utf8Bytes "key")
        (utf8Bytes "The quick brown fox jumps over the lazy dog")) =
      "f7bc83f430538424b13298e6aa6fb143ef4d59a14946175997479dbc2d1a3cd8" := by
  decide

/-! ### Reconciliation / refund (`src/services/routes/transactions.py`) -/

/-- The module constant `REQUERY_TIMEOUT_MINUTES`. -/
def REQUERY_TIMEOUT_MINUTES : Int := 10

/-- Outcome of the refund route: HTTP code, message, the generated
refund reference if any, and the stored row afterwards. -/
structure RefundResult where
  code : Nat
  message : String
  refundRef : Option String
  txn : Option Transaction
deriving DecidableEq, Repr

/-- Insertion (or overwrite) of a key into the JSON-dict model, as in
`transaction.provider_response = transaction.provider_response or {}`
followed by a key assignment. -/
def dictInsert (d : Option (List (String × String))) (k v : String) :
    List (String × String) :=
  let l := d.getD []
  if (l.lookup k).isSome then l.map (fun p => if p.1 = k then (k, v) else p)
  else l ++ [(k, v)]

/-- The generated refund reference
`f"REF_{datetime.utcnow().strftime(...)}_{request_id[-6:]}"`; the
timestamp rendering is abstracted to the integer clock value (the
strftime format is presentation only). -/
def refundReference (now : Int) (requestId : String) : String :=
  "REF_" ++ toString now ++ "_" ++ ⟨requestId.toList.drop (requestId.length - 6)⟩

/-- The route `refund_transaction` from
`src/services/routes/transactions.py`.  `txn` is the row found by
`request_id` (`none` when the query returns nothing).  Eligibility:
status FAILED, or status PROCESSING with `now - updated_at` beyond the
10-minute timeout (the code falls back from `updated_at` to
`created_at`, but `updated_at` is a non-nullable column, so the
fallback never fires and `updated_at` is used directly).  On an
eligible refund the route calls `change_transaction_status(...,
REFUNDED)`; a raised ValueError there is caught, the session is rolled
back, and the route returns 500. -/
def refundTransaction (txn : Option Transaction) (now : Int) : RefundResult :=
  match txn with
  | none => ⟨404, "Transaction not found", none, none⟩
  | some t =>
      let canRefund : Bool :=
        if t.status = .FAILED then true
        else if t.status = .PROCESSING then
          now - t.updatedAt > REQUERY_TIMEOUT_MINUTES * 60
        else false
      if ¬ canRefund then
        ⟨400, "Refund not allowed for current status", none, some t⟩
      else
        match changeTransactionStatus t .REFUNDED now with
        | .error _ => ⟨500, "Refund failed", none, some t⟩
        | .ok tr =>
            let ref := refundReference now t.requestId
            ⟨200, "", some ref,
             some { tr with
                    providerResponse :=
                      some (dictInsert tr.providerResponse "refund_reference" ref),
                    updatedAt := now }⟩


/-! ### Purchase intake (`src/services/routes/airtime.py`, `src/services/routes/data.py`) -/

/-- ASCII lower-casing of a character, as applied by `str.lower()` to
the network names the routes accept (all ASCII). -/
def lowerChar (c : Char) : Char :=
  if 65 ≤ c.toNat ∧ c.toNat ≤ 90 then Char.ofNat (c.toNat + 32) else c

/-- ASCII lower-casing of a string (`data["network"].lower()`). -/
def lowerString (str : String) : String := ⟨str.toList.map lowerChar⟩

/-- Network names accepted by both purchase routes. -/
def validNetworks : List String := ["mtn", "glo", "airtel", "9mobile"]

/-- A purchase request body.  `none` models an absent JSON key; the
numeric conversions (`float(...)`, `int(...)`) are folded into the
field types. -/
structure PurchaseRequest where
  userId : Option String
  phone : Option String
  network : Option String
  amount : Option Rat
  amountCharged : Option Rat
  dataPlanId : Option Int
deriving DecidableEq, Repr

/-- Outcome of one vendor call made by `IACafeService.purchase_airtime`
or `purchase_data`: either a parsed JSON response (with the keys the
routes read, defaults already applied: `success`, `reference`,
`status`, `message`), or a raised exception carrying its message
(connection timeout, SSL or transport failure, malformed response body
— the failure modes `_make_request` re-raises as `Exception`). -/
inductive VendorOutcome where
  | response (success : Bool) (reference : String) (status : String) (message : String)
  | exc (message : String)
deriving DecidableEq, Repr

/-- Outcome of a purchase-intake route call: HTTP code and message, the
stored row for the generated request id afterwards (`none` when no row
exists), whether a fresh row was inserted, whether the vendor API was
called, and when it was, the status the stored transaction had at the
moment of the call, together with the status the row was created
with. -/
structure PurchaseResult where
  code : Nat
  message : String
  txn : Option Transaction
  inserted : Bool
  vendorCalled : Bool
  initialStatus : Option TransactionStatus
  statusWhenVendorCalled : Option TransactionStatus
deriving DecidableEq, Repr

/-- Short-hand for a purchase-intake early return before any row is
inserted or any vendor call is made. -/
def earlyReject (code : Nat) (message : String) : PurchaseResult :=
  ⟨code, message, none, false, false, none, none⟩

/-- Vendor-call block of `purchase_airtime`, applied to the stored row
`t1` already committed in PROCESSING: the IA Cafe call, the stored
provider response, the immediate-failure 400 path, the pending-webhook
200 path, and the exception 500 path. -/
def airtimeVendorPhase (t1 : Transaction) (vendor : VendorOutcome) (now : Int) :
    PurchaseResult :=
  match vendor with
  | .response success reference status message =>
      let t2 := { t1 with
        providerResponse := some [("success", if success then "True" else "False"),
                                  ("reference", reference), ("status", status),
                                  ("message", message)],
        iacafeReference := some reference, iacafeStatus := some status,
        updatedAt := now }
      if ¬ success then
        let t3 := storedAfterChange t2 .FAILED now
        ⟨400, "Airtime purchase failed: " ++ message, some t3, true, true,
         some TransactionStatus.INITIATED, some t1.status⟩
      else
        ⟨200, "Airtime purchase initiated successfully", some t2, true, true,
         some TransactionStatus.INITIATED, some t1.status⟩
  | .exc message =>
      let t2 := { t1 with
        providerResponse := some [("error", message)],
        errorMessage := some message, updatedAt := now }
      let t3 := storedAfterChange t2 .FAILED now
      ⟨500, "Airtime purchase failed. Please try again.", some t3, true, true,
       some TransactionStatus.INITIATED, some t1.status⟩

/-- The route `purchase_airtime` from `src/services/routes/airtime.py`.

Arguments beyond the request body: `existing` is the row already stored
under the generated `request_id` if any (the idempotency query);
`insertConflicts` is true when the storage-level unique constraint
`uq_transactions_request_id` rejects the insert (a concurrent duplicate
— any exception in the creation block lands in the same generic
`except`); `vendor` is the outcome of the IA Cafe call; `requestId` is
the generated `VECTRA_...` id; `now` is the wall clock.

Control flow mirrors the source: required-field checks, network and
amount validation, duplicate check (409), DB-first insert of an
INITIATED row, transition to PROCESSING, then the vendor call.  An
immediate vendor-reported failure marks the row FAILED and returns 400;
a raised vendor exception stores the error message, marks the row
FAILED and returns 500. -/
def purchaseAirtime (req : PurchaseRequest) (existing : Option Transaction)
    (insertConflicts : Bool) (vendor : VendorOutcome) (requestId : String)
    (now : Int) : PurchaseResult :=
  match req.phone with
  | none => earlyReject 400 "Missing required field: phone"
  | some phone =>
  match req.network with
  | none => earlyReject 400 "Missing required field: network"
  | some networkRaw =>
  match req.amount with
  | none => earlyReject 400 "Missing required field: amount"
  | some amount =>
  match req.amountCharged with
  | none => earlyReject 400 "Missing required field: amount_charged"
  | some amountCharged =>
  let network := lowerString networkRaw
  if network ∉ validNetworks then
    earlyReject 400 "Invalid network. Must be one of: mtn, glo, airtel, 9mobile"
  else if amount ≤ 0 ∨ amountCharged ≤ 0 then
    earlyReject 400 "Amount must be greater than 0"
  else
    match existing with
    | some ex => ⟨409, "Duplicate request detected", some ex, false, false, none, none⟩
    | none =>
    if insertConflicts then
      ⟨500, "Failed to create transaction", none, false, false, none, none⟩
    else
      match networkTypeOfValue network with
      | .error _ => ⟨500, "Failed to create transaction", none, false, false, none, none⟩
      | .ok networkType =>
      let t0 : Transaction :=
        { requestId := requestId, userId := req.userId, service := .airtime,
          network := networkType, phone := phone, amount := amount,
          amountCharged := amountCharged, status := .INITIATED,
          iacafeReference := none, iacafeStatus := none, errorMessage := none,
          providerResponse := none, webhookPayload := none,
          webhookReceivedAt := none, webhookDeliveryId := none,
          createdAt := now, updatedAt := now }
      match changeTransactionStatus t0 .PROCESSING now with
      | .error _ =>
          ⟨500, "Failed to process transaction", some t0, true, false,
           some TransactionStatus.INITIATED, none⟩
      | .ok t1 => airtimeVendorPhase t1 vendor now


/-- Vendor-call block of `purchase_data`, applied to the freshly
committed INITIATED row `t0`: the IA Cafe call and the `try/except`
cascade described in `purchaseData`. -/
def dataVendorPhase (t0 : Transaction) (vendor : VendorOutcome) (now : Int) :
    PurchaseResult :=
  match vendor with
  | .response success reference status message =>
      if success then
        let t1 := { t0 with iacafeReference := some reference,
                            iacafeStatus := some status }
        let normalized := normalizeStatus status
        let statusResult : Except String Transaction :=
          if normalized = "SUCCESS" then setStatus t1 .PROCESSING now
          else
            match transactionStatusOfValue normalized with
            | .error e => .error e
            | .ok sv => setStatus t1 sv now
        match statusResult with
        | .ok t2 =>
            ⟨200, "Data purchase initiated successfully", some t2, true, true,
             some TransactionStatus.INITIATED, some t0.status⟩
        | .error e =>
            match setStatus t1 .FAILED now with
            | .ok tf =>
                ⟨500, "Data purchase failed. Please try again.",
                 some { tf with errorMessage := some e }, true, true,
                 some TransactionStatus.INITIATED, some t0.status⟩
            | .error _ =>
                ⟨500, "Internal server error", some t0, true, true,
                 some TransactionStatus.INITIATED, some t0.status⟩
      else
        match setStatus t0 .FAILED now with
        | .ok tf =>
            ⟨400, "Data purchase failed: " ++ message,
             some { tf with errorMessage := some message }, true, true,
             some TransactionStatus.INITIATED, some t0.status⟩
        | .error e =>
            match setStatus t0 .FAILED now with
            | .ok tf =>
                ⟨500, "Data purchase failed. Please try again.",
                 some { tf with errorMessage := some e }, true, true,
                 some TransactionStatus.INITIATED, some t0.status⟩
            | .error _ =>
                ⟨500, "Internal server error", some t0, true, true,
                 some TransactionStatus.INITIATED, some t0.status⟩
  | .exc message =>
      match setStatus t0 .FAILED now with
      | .ok tf =>
          ⟨500, "Data purchase failed. Please try again.",
           some { tf with errorMessage := some message }, true, true,
           some TransactionStatus.INITIATED, some t0.status⟩
      | .error _ =>
          ⟨500, "Internal server error", some t0, true, true,
           some TransactionStatus.INITIATED, some t0.status⟩


/-- The route `purchase_data` from `src/services/routes/data.py`.

Same argument conventions as `purchaseAirtime`.  The data route differs
from the airtime route in ways that matter to the claims: the row is
created with `TransactionStatus.PENDING` (the alias of INITIATED) and
is *not* moved to PROCESSING before the vendor call; status updates
after the vendor response assign `transaction.status` directly (still
guarded by the model-level listener); a listener ValueError propagates
to the inner `except api_error`, whose own `transaction.status =
FAILED` assignment raises again for an INITIATED row and lands in the
outer handler, which rolls back to the last committed state and
returns 500 "Internal server error". -/
def purchaseData (req : PurchaseRequest) (existing : Option Transaction)
    (insertConflicts : Bool) (vendor : VendorOutcome) (requestId : String)
    (now : Int) : PurchaseResult :=
  match req.phone with
  | none => earlyReject 400 "Missing required field: phone"
  | some phone =>
  match req.network with
  | none => earlyReject 400 "Missing required field: network"
  | some networkRaw =>
  match req.dataPlanId with
  | none => earlyReject 400 "Missing required field: data_plan_id"
  | some dataPlanId =>
  match req.amount with
  | none => earlyReject 400 "Missing required field: amount"
  | some amount =>
  match req.amountCharged with
  | none => earlyReject 400 "Missing required field: amount_charged"
  | some amountCharged =>
  let network := lowerString networkRaw
  if network ∉ validNetworks then
    earlyReject 400 "Invalid network. Must be one of: mtn, glo, airtel, 9mobile"
  else if amount ≤ 0 ∨ amountCharged ≤ 0 then
    earlyReject 400 "Amount must be greater than 0"
  else if dataPlanId ≤ 0 then
    earlyReject 400 "Invalid data plan ID"
  else
    match existing with
    | some ex => ⟨409, "Duplicate request detected", some ex, false, false, none, none⟩
    | none =>
    if insertConflicts then
      -- the IntegrityError from the unique constraint is caught by the
      -- single outer handler of this route
      ⟨500, "Internal server error", none, false, false, none, none⟩
    else
      match networkTypeOfValue network with
      | .error _ => ⟨500, "Internal server error", none, false, false, none, none⟩
      | .ok networkType =>
      let t0 : Transaction :=
        { requestId := requestId, userId := req.userId, service := .data,
          network := networkType, phone := phone, amount := amount,
          amountCharged := amountCharged, status := .INITIATED,
          iacafeReference := none, iacafeStatus := none, errorMessage := none,
          providerResponse := none, webhookPayload := none,
          webhookReceivedAt := none, webhookDeliveryId := none,
          createdAt := now, updatedAt := now }
      dataVendorPhase t0 vendor now

/-! ### Example rows and requests used by concrete theorems -/

/-- A baseline transaction row used by concrete evaluations. -/
def baseTxn : Transaction :=
  { requestId := "VECTRA_20260101_abcdef123456", userId := none, service := .airtime,
    network := .mtn, phone := "08011111111", amount := 100, amountCharged := 100,
    status := .INITIATED, iacafeReference := none, iacafeStatus := none,
    errorMessage := none, providerResponse := none, webhookPayload := none,
    webhookReceivedAt := none, webhookDeliveryId := none, createdAt := 0, updatedAt := 0 }

/-! ### Claim C2: the status transition guard -/

/-- Value strings distinguish the five statuses. -/
theorem status_value_injective (a b : TransactionStatus) (h : a ≠ b) :
    a.value ≠ b.value := by
  cases a <;> cases b <;> simp_all [TransactionStatus.value]

/-- Evaluation of the listener on a non-edge, non-reassertion pair. -/
theorem validateStatusTransition_invalid (old target : TransactionStatus)
    (hedge : ¬ allowedEdge old target) (hne : target.value ≠ old.value) :
    validateStatusTransition (some old.value) target =
      .error ("Invalid status transition: " ++ old.value ++ " -> " ++ target.value) := by
  cases old <;> cases target <;>
    simp_all [allowedEdge, validateStatusTransition, TransactionStatus.value,
      allowedStatusTransitions, transactionStatusValues]

/-- Evaluation of the listener on a reassertion of the current status. -/
theorem validateStatusTransition_self (s : TransactionStatus) :
    validateStatusTransition (some s.value) s = .ok s := by
  cases s <;>
    simp [validateStatusTransition, TransactionStatus.value, transactionStatusValues]

/-- C2: for every transaction and every (currentStatus, targetStatus)
pair that is not an edge of the transition table and is not a
re-assertion of the current status, `change_transaction_status` raises
a ValueError naming the offending pair and the stored status is
unchanged; re-asserting the current status succeeds as a no-op. -/
theorem invalid_transition_rejected_and_reassert_noop :
    ∀ (t : Transaction) (target : TransactionStatus) (now : Int),
      (¬ allowedEdge t.status target → target ≠ t.status →
        changeTransactionStatus t target now =
          .error ("Invalid status transition: " ++ t.status.value ++ " -> " ++ target.value) ∧
        storedAfterChange t target now = t) ∧
      changeTransactionStatus t t.status now = .ok t := by
  intro t target now
  constructor
  · intro hedge hne
    have hv := validateStatusTransition_invalid t.status target hedge
      (status_value_injective target t.status hne)
    refine ⟨?_, ?_⟩
    · simp [changeTransactionStatus, setStatus, hv]
    · simp [storedAfterChange, changeTransactionStatus, setStatus, hv]
  · simp [changeTransactionStatus, setStatus, validateStatusTransition_self]

/-- Concrete instance of C2: a SUCCESS row refuses a PROCESSING target
(naming the pair) and keeps its stored status. -/
theorem invalid_transition_rejected_witness :
    changeTransactionStatus { baseTxn with status := .SUCCESS } .PROCESSING 100 =
      .error ("Invalid status transition: " ++
        (Transaction.status { baseTxn with status := .SUCCESS }).value ++ " -> " ++
        (TransactionStatus.PROCESSING).value) ∧
    storedAfterChange { baseTxn with status := .SUCCESS } .PROCESSING 100 =
      { baseTxn with status := .SUCCESS } :=
  (invalid_transition_rejected_and_reassert_noop
      { baseTxn with status := .SUCCESS } .PROCESSING 100).1
    (by decide) (by decide)

/-! ### Claim C4: vendor status normalization -/

/-- C4 counterexample: the vendor "processing" family is mapped to the
string PENDING, not to PROCESSING. -/
theorem normalizeStatus_processing_is_PENDING :
    normalizeStatus "processing-api" = "PENDING" ∧
    normalizeStatus "processing-api" ≠ "PROCESSING" := by
  constructor
  · rfl
  · decide

/-- C4 (amended): `normalize_status` maps "completed-api" to SUCCESS,
"refunded" to REFUNDED, "unprocessable" and "422" to FAILED, and both
the vendor "processing" family and every unrecognized string to the
pending marker PENDING — never to SUCCESS, FAILED, or REFUNDED. -/
theorem normalizeStatus_table :
    normalizeStatus "completed-api" = "SUCCESS" ∧
    normalizeStatus "refunded" = "REFUNDED" ∧
    normalizeStatus "unprocessable" = "FAILED" ∧
    normalizeStatus "422" = "FAILED" ∧
    normalizeStatus "processing-api" = "PENDING" ∧
    (∀ s : String,
      s ∉ ["processing-api", "completed-api", "refunded", "unprocessable", "422"] →
      normalizeStatus s = "PENDING" ∧
      normalizeStatus s ≠ "SUCCESS" ∧ normalizeStatus s ≠ "FAILED" ∧
      normalizeStatus s ≠ "REFUNDED") := by
  refine ⟨rfl, rfl, rfl, rfl, rfl, ?_⟩
  intro s hs
  simp only [List.mem_cons, List.mem_singleton, not_or] at hs
  obtain ⟨h1, h2, h3, h4, h5, -⟩ := hs
  unfold normalizeStatus
  simp [h1, h2, h3, h4, h5]

/-- Concrete instance of C4: the unrecognized vendor status "completed"
(without the -api suffix) normalizes to PENDING, not to a terminal
status. -/
theorem normalizeStatus_table_witness :
    normalizeStatus "completed" = "PENDING" ∧
    normalizeStatus "completed" ≠ "SUCCESS" ∧ normalizeStatus "completed" ≠ "FAILED" ∧
    normalizeStatus "completed" ≠ "REFUNDED" :=
  normalizeStatus_table.2.2.2.2.2 "completed" (by decide)


/-! ### Claim C3: refund eligibility and execution -/

/-- A FAILED transaction, refund-eligible per the route gate. -/
def failedTxnC3 : Transaction := { baseTxn with status := .FAILED }

/-- A PROCESSING transaction last updated at time 0, stuck beyond the
10-minute timeout by time 700. -/
def stuckProcessingTxnC3 : Transaction := { baseTxn with status := .PROCESSING }

/-- C3: the refund route never completes a refund.  Its eligibility
gate matches the specified condition (FAILED, or PROCESSING and
unchanged beyond the 10-minute timeout; earlier attempts get the
"Refund not allowed" 400), but every eligible refund then calls
`change_transaction_status(..., REFUNDED)`, which the transition table
rejects from both FAILED and PROCESSING, so the route answers 500
"Refund failed" with the stored row unchanged — it never reaches 200,
never stores a refund reference, and never sets REFUNDED. -/
theorem refund_never_succeeds :
    (∀ (t : Transaction) (now : Int), (refundTransaction (some t) now).code ≠ 200) ∧
    refundTransaction (some failedTxnC3) 700 =
      ⟨500, "Refund failed", none, some failedTxnC3⟩ ∧
    refundTransaction (some stuckProcessingTxnC3) 700 =
      ⟨500, "Refund failed", none, some stuckProcessingTxnC3⟩ ∧
    refundTransaction (some stuckProcessingTxnC3) 100 =
      ⟨400, "Refund not allowed for current status", none, some stuckProcessingTxnC3⟩ := by
  refine ⟨?_, by decide, by decide, by decide⟩
  intro t now
  unfold refundTransaction
  cases h : t.status <;>
    (simp [h, changeTransactionStatus, setStatus, validateStatusTransition,
       TransactionStatus.value, allowedStatusTransitions, transactionStatusValues,
       REQUERY_TIMEOUT_MINUTES]
     try (split <;> simp))


/-! ### Claim C1: vendor transient failures during purchase intake -/

/-- A valid airtime purchase request body. -/
def validAirtimeReq : PurchaseRequest :=
  { userId := none, phone := some "08011111111", network := some "mtn",
    amount := some 100, amountCharged := some 100, dataPlanId := none }

/-- A valid data purchase request body. -/
def validDataReq : PurchaseRequest := { validAirtimeReq with dataPlanId := some 5001 }

/-- The generated request id used by concrete evaluations. -/
def genRequestId : String := "VECTRA_20260101_abcdef123456"

/-- C1 counterexample: an airtime purchase whose vendor call raises a
connection-timeout exception ends with the stored transaction FAILED
(HTTP 500), not left in PROCESSING. -/
theorem vendor_exception_not_left_processing_cex :
    ((purchaseAirtime validAirtimeReq none false
        (.exc "Connection timeout to IA Cafe API") genRequestId 0).txn.map
      Transaction.status) = some TransactionStatus.FAILED ∧
    some TransactionStatus.FAILED ≠ some TransactionStatus.PROCESSING ∧
    (purchaseAirtime validAirtimeReq none false
        (.exc "Connection timeout to IA Cafe API") genRequestId 0).code = 500 := by
  refine ⟨by decide, by decide, by decide⟩

/-- C1 (amended): for every airtime purchase-intake call in which the
vendor call raises an exception (connection timeout, SSL/transport
error, malformed response), the route stores the error message and
transitions the transaction PROCESSING → FAILED, returning 500; the
transaction is not left in PROCESSING for reconciliation. -/
theorem vendor_exception_marks_failed :
    ∀ (uid : Option String) (phone networkRaw : String) (amount amountCharged : Rat)
      (planId : Option Int) (message requestId : String) (now : Int),
      lowerString networkRaw ∈ validNetworks →
      0 < amount → 0 < amountCharged →
      ((purchaseAirtime ⟨uid, some phone, some networkRaw, some amount,
          some amountCharged, planId⟩ none false (.exc message) requestId now).txn.map
        Transaction.status) = some TransactionStatus.FAILED ∧
      ((purchaseAirtime ⟨uid, some phone, some networkRaw, some amount,
          some amountCharged, planId⟩ none false (.exc message) requestId now).txn.map
        Transaction.errorMessage) = some (some message) ∧
      (purchaseAirtime ⟨uid, some phone, some networkRaw, some amount,
          some amountCharged, planId⟩ none false (.exc message) requestId now).code = 500 := by
  intro uid phone networkRaw amount amountCharged planId message requestId now hnet ha hac
  have hnal : ¬ amount ≤ 0 := not_le.mpr ha
  have hnacl : ¬ amountCharged ≤ 0 := not_le.mpr hac
  simp only [validNetworks, List.mem_cons, List.mem_singleton] at hnet
  rcases hnet with h | h | h | h | h <;> try cases h
  all_goals
    simp_all [purchaseAirtime, airtimeVendorPhase, validNetworks, networkTypeOfValue,
      changeTransactionStatus, setStatus, validateStatusTransition,
      TransactionStatus.value, allowedStatusTransitions, transactionStatusValues,
      storedAfterChange, ha.not_le, hac.not_le]

/-- Concrete instance of C1 (amended): the timeout exception path at a
valid request. -/
theorem vendor_exception_marks_failed_witness :
    ((purchaseAirtime ⟨none, some "08011111111", some "mtn", some 100, some 100,
        none⟩ none false (.exc "timeout") genRequestId 5).txn.map
      Transaction.status) = some TransactionStatus.FAILED ∧
    ((purchaseAirtime ⟨none, some "08011111111", some "mtn", some 100, some 100,
        none⟩ none false (.exc "timeout") genRequestId 5).txn.map
      Transaction.errorMessage) = some (some "timeout") ∧
    (purchaseAirtime ⟨none, some "08011111111", some "mtn", some 100, some 100,
        none⟩ none false (.exc "timeout") genRequestId 5).code = 500 :=
  vendor_exception_marks_failed none "08011111111" "mtn" 100 100 none "timeout"
    genRequestId 5 (by decide) (by decide) (by decide)


/-! ### Claim C5: lifecycle before the vendor call -/

/-- Every branch of the airtime vendor phase reports the creation
status INITIATED. -/
theorem airtimeVendorPhase_initialStatus (t1 : Transaction) (vendor : VendorOutcome)
    (now : Int) : (airtimeVendorPhase t1 vendor now).initialStatus =
      some TransactionStatus.INITIATED := by
  cases vendor with
  | response success reference status message =>
      by_cases hs : success <;> simp [airtimeVendorPhase, hs]
  | exc message => simp [airtimeVendorPhase]

/-- Every branch of the airtime vendor phase reports the status the
row had when the vendor was called. -/
theorem airtimeVendorPhase_statusWhenVendorCalled (t1 : Transaction)
    (vendor : VendorOutcome) (now : Int) :
    (airtimeVendorPhase t1 vendor now).statusWhenVendorCalled = some t1.status := by
  cases vendor with
  | response success reference status message =>
      by_cases hs : success <;> simp [airtimeVendorPhase, hs]
  | exc message => simp [airtimeVendorPhase]

/-- Every branch of the data vendor phase reports the creation status
INITIATED. -/
theorem dataVendorPhase_initialStatus (t0 : Transaction) (vendor : VendorOutcome)
    (now : Int) : (dataVendorPhase t0 vendor now).initialStatus =
      some TransactionStatus.INITIATED := by
  cases vendor with
  | response success reference status message =>
      by_cases hs : success <;>
        simp only [dataVendorPhase, hs, if_true, if_false, Bool.false_eq_true,
          reduceIte] <;>
        split <;> (try split) <;> rfl
  | exc message =>
      simp only [dataVendorPhase]
      split <;> rfl

/-- Every branch of the data vendor phase reports the status the row
had when the vendor was called. -/
theorem dataVendorPhase_statusWhenVendorCalled (t0 : Transaction)
    (vendor : VendorOutcome) (now : Int) :
    (dataVendorPhase t0 vendor now).statusWhenVendorCalled = some t0.status := by
  cases vendor with
  | response success reference status message =>
      by_cases hs : success <;>
        simp only [dataVendorPhase, hs, if_true, if_false, Bool.false_eq_true,
          reduceIte] <;>
        split <;> (try split) <;> rfl
  | exc message =>
      simp only [dataVendorPhase]
      split <;> rfl


/-- C5 counterexample: a valid data purchase makes its vendor call
while the created transaction is still INITIATED — it has not passed
through PROCESSING when the vendor result is applied. -/
theorem data_purchase_not_processing_before_vendor_cex :
    (purchaseData validDataReq none false (.response true "ref" "completed-api" "")
        genRequestId 0).vendorCalled = true ∧
    (purchaseData validDataReq none false (.response true "ref" "completed-api" "")
        genRequestId 0).statusWhenVendorCalled = some TransactionStatus.INITIATED ∧
    some TransactionStatus.INITIATED ≠ some TransactionStatus.PROCESSING := by
  refine ⟨by decide, by decide, by decide⟩

/-- C5 (amended): a valid airtime purchase with an unused requestId
creates the row INITIATED and moves it to PROCESSING before the vendor
call; a valid data purchase creates the row INITIATED (via the PENDING
alias) and it is still INITIATED when the vendor call is made and its
result applied. -/
theorem created_status_before_vendor_call :
    ∀ (uid : Option String) (phone networkRaw : String) (amount amountCharged : Rat)
      (planId : Int) (vendor : VendorOutcome) (requestId : String) (now : Int),
      lowerString networkRaw ∈ validNetworks →
      0 < amount → 0 < amountCharged → 0 < planId →
      ((purchaseAirtime ⟨uid, some phone, some networkRaw, some amount,
          some amountCharged, some planId⟩ none false vendor requestId now).initialStatus
        = some TransactionStatus.INITIATED ∧
       (purchaseAirtime ⟨uid, some phone, some networkRaw, some amount,
          some amountCharged, some planId⟩ none false vendor requestId now).statusWhenVendorCalled
        = some TransactionStatus.PROCESSING) ∧
      ((purchaseData ⟨uid, some phone, some networkRaw, some amount,
          some amountCharged, some planId⟩ none false vendor requestId now).initialStatus
        = some TransactionStatus.INITIATED ∧
       (purchaseData ⟨uid, some phone, some networkRaw, some amount,
          some amountCharged, some planId⟩ none false vendor requestId now).statusWhenVendorCalled
        = some TransactionStatus.INITIATED) := by
  intro uid phone networkRaw amount amountCharged planId vendor requestId now hnet ha hac hpl
  simp only [validNetworks, List.mem_cons, List.mem_singleton] at hnet
  rcases hnet with h | h | h | h | h <;> try cases h
  all_goals
    simp_all [purchaseAirtime, purchaseData, validNetworks, networkTypeOfValue,
      changeTransactionStatus, setStatus, validateStatusTransition,
      TransactionStatus.value, allowedStatusTransitions, transactionStatusValues,
      airtimeVendorPhase_initialStatus, airtimeVendorPhase_statusWhenVendorCalled,
      dataVendorPhase_initialStatus, dataVendorPhase_statusWhenVendorCalled,
      ha.not_le, hac.not_le, hpl.not_le]

/-- Concrete instance of C5 (amended). -/
theorem created_status_before_vendor_call_witness :
    ((purchaseAirtime ⟨none, some "08011111111", some "mtn", some 100, some 100,
        some 5001⟩ none false (.response true "r" "processing-api" "") genRequestId 3).initialStatus
      = some TransactionStatus.INITIATED ∧
     (purchaseAirtime ⟨none, some "08011111111", some "mtn", some 100, some 100,
        some 5001⟩ none false (.response true "r" "processing-api" "") genRequestId 3).statusWhenVendorCalled
      = some TransactionStatus.PROCESSING) ∧
    ((purchaseData ⟨none, some "08011111111", some "mtn", some 100, some 100,
        some 5001⟩ none false (.response true "r" "processing-api" "") genRequestId 3).initialStatus
      = some TransactionStatus.INITIATED ∧
     (purchaseData ⟨none, some "08011111111", some "mtn", some 100, some 100,
        some 5001⟩ none false (.response true "r" "processing-api" "") genRequestId 3).statusWhenVendorCalled
      = some TransactionStatus.INITIATED) :=
  created_status_before_vendor_call none "08011111111" "mtn" 100 100 5001
    (.response true "r" "processing-api" "") genRequestId 3
    (by decide) (by decide) (by decide) (by decide)


/-! ### Claim C9: duplicate requestId handling -/

/-- C9 counterexample: a storage-level uniqueness-constraint violation
on insert (a concurrent duplicate racing past the pre-check) is caught
by the generic creation handler and returned as 500 "Failed to create
transaction" — not translated into the 409 duplicate response, and no
row is created. -/
theorem insert_conflict_not_duplicate_response_cex :
    purchaseAirtime validAirtimeReq none true (.response true "r" "processing-api" "")
        genRequestId 0 =
      ⟨500, "Failed to create transaction", none, false, false, none, none⟩ ∧
    (purchaseAirtime validAirtimeReq none true (.response true "r" "processing-api" "")
        genRequestId 0).code ≠ 409 := by
  refine ⟨by decide, by decide⟩

/-- C9 (amended): when the pre-insert query finds an existing row with
the same requestId, the airtime route returns the existing transaction
as a 409 duplicate response and inserts nothing; but a storage-level
uniqueness-constraint violation on the insert itself is caught by the
generic creation handler and returned as a 500 internal error with no
row created, not as a duplicate response. -/
theorem duplicate_request_handling :
    ∀ (uid : Option String) (phone networkRaw : String) (amount amountCharged : Rat)
      (planId : Option Int) (ex : Transaction) (conflicts : Bool)
      (vendor : VendorOutcome) (requestId : String) (now : Int),
      lowerString networkRaw ∈ validNetworks →
      0 < amount → 0 < amountCharged →
      purchaseAirtime ⟨uid, some phone, some networkRaw, some amount,
          some amountCharged, planId⟩ (some ex) conflicts vendor requestId now =
        ⟨409, "Duplicate request detected", some ex, false, false, none, none⟩ ∧
      purchaseAirtime ⟨uid, some phone, some networkRaw, some amount,
          some amountCharged, planId⟩ none true vendor requestId now =
        ⟨500, "Failed to create transaction", none, false, false, none, none⟩ := by
  intro uid phone networkRaw amount amountCharged planId ex conflicts vendor requestId
    now hnet ha hac
  simp only [validNetworks, List.mem_cons, List.mem_singleton] at hnet
  rcases hnet with h | h | h | h | h <;> try cases h
  all_goals
    simp_all [purchaseAirtime, validNetworks, ha.not_le, hac.not_le]

/-- Concrete instance of C9 (amended). -/
theorem duplicate_request_handling_witness :
    purchaseAirtime ⟨none, some "08011111111", some "mtn", some 100, some 100, none⟩
        (some baseTxn) false (.exc "boom") genRequestId 9 =
      ⟨409, "Duplicate request detected", some baseTxn, false, false, none, none⟩ ∧
    purchaseAirtime ⟨none, some "08011111111", some "mtn", some 100, some 100, none⟩
        none true (.exc "boom") genRequestId 9 =
      ⟨500, "Failed to create transaction", none, false, false, none, none⟩ :=
  duplicate_request_handling none "08011111111" "mtn" 100 100 none baseTxn false
    (.exc "boom") genRequestId 9 (by decide) (by decide) (by decide)

/-! ### Claim C10: non-positive amounts are rejected up front -/

/-- C10: for every purchase request (airtime or data) carrying an
amount or amount_charged that is not positive, the route answers with a
400 validation error before any transaction row is created and before
any vendor call is made. -/
theorem nonpositive_amount_rejected :
    ∀ (uid phone networkRaw : Option String) (amount amountCharged : Rat)
      (planId : Option Int) (existing : Option Transaction) (conflicts : Bool)
      (vendor : VendorOutcome) (requestId : String) (now : Int),
      amount ≤ 0 ∨ amountCharged ≤ 0 →
      ((purchaseAirtime ⟨uid, phone, networkRaw, some amount, some amountCharged,
          planId⟩ existing conflicts vendor requestId now).code = 400 ∧
       (purchaseAirtime ⟨uid, phone, networkRaw, some amount, some amountCharged,
          planId⟩ existing conflicts vendor requestId now).txn = none ∧
       (purchaseAirtime ⟨uid, phone, networkRaw, some amount, some amountCharged,
          planId⟩ existing conflicts vendor requestId now).inserted = false ∧
       (purchaseAirtime ⟨uid, phone, networkRaw, some amount, some amountCharged,
          planId⟩ existing conflicts vendor requestId now).vendorCalled = false) ∧
      ((purchaseData ⟨uid, phone, networkRaw, some amount, some amountCharged,
          planId⟩ existing conflicts vendor requestId now).code = 400 ∧
       (purchaseData ⟨uid, phone, networkRaw, some amount, some amountCharged,
          planId⟩ existing conflicts vendor requestId now).txn = none ∧
       (purchaseData ⟨uid, phone, networkRaw, some amount, some amountCharged,
          planId⟩ existing conflicts vendor requestId now).inserted = false ∧
       (purchaseData ⟨uid, phone, networkRaw, some amount, some amountCharged,
          planId⟩ existing conflicts vendor requestId now).vendorCalled = false) := by
  intro uid phone networkRaw amount amountCharged planId existing conflicts vendor
    requestId now hle
  cases phone <;> cases networkRaw <;> (try cases planId) <;>
    simp_all [purchaseAirtime, purchaseData, earlyReject] <;>
    split <;>
    simp_all [earlyReject]

/-- Concrete instance of C10: a zero amount is rejected with 400 and
neither a row nor a vendor call happens. -/
theorem nonpositive_amount_rejected_witness :
    ((purchaseAirtime ⟨none, some "08011111111", some "mtn", some 0, some 100,
        some 5001⟩ none false (.exc "boom") genRequestId 2).code = 400 ∧
     (purchaseAirtime ⟨none, some "08011111111", some "mtn", some 0, some 100,
        some 5001⟩ none false (.exc "boom") genRequestId 2).txn = none ∧
     (purchaseAirtime ⟨none, some "08011111111", some "mtn", some 0, some 100,
        some 5001⟩ none false (.exc "boom") genRequestId 2).inserted = false ∧
     (purchaseAirtime ⟨none, some "08011111111", some "mtn", some 0, some 100,
        some 5001⟩ none false (.exc "boom") genRequestId 2).vendorCalled = false) ∧
    ((purchaseData ⟨none, some "08011111111", some "mtn", some 0, some 100,
        some 5001⟩ none false (.exc "boom") genRequestId 2).code = 400 ∧
     (purchaseData ⟨none, some "08011111111", some "mtn", some 0, some 100,
        some 5001⟩ none false (.exc "boom") genRequestId 2).txn = none ∧
     (purchaseData ⟨none, some "08011111111", some "mtn", some 0, some 100,
        some 5001⟩ none false (.exc "boom") genRequestId 2).inserted = false ∧
     (purchaseData ⟨none, some "08011111111", some "mtn", some 0, some 100,
        some 5001⟩ none false (.exc "boom") genRequestId 2).vendorCalled = false) :=
  nonpositive_amount_rejected none (some "08011111111") (some "mtn") 0 100
    (some 5001) none false (.exc "boom") genRequestId 2 (Or.inl (by decide))


/-! ### Claim C7: webhook idempotence per delivery id -/

/-- Re-applying a delivery to the store it already produced changes
nothing: every early path leaves the store untouched, and the update
path stamps the delivery id on the row, so a second application hits
the deduplication check. -/
theorem webhookApply_idempotent (deliveryId : String) (payload : WebhookPayload)
    (data : WebhookData) (txn : Option Transaction) (now1 now2 : Int) :
    (webhookApply deliveryId payload data
        (webhookApply deliveryId payload data txn now1).2 now2).2 =
      (webhookApply deliveryId payload data txn now1).2 := by
  cases txn with
  | none => rfl
  | some t =>
      by_cases h1 : t.webhookDeliveryId = some deliveryId
      · simp [webhookApply, h1]
      · by_cases h2 : t.status = TransactionStatus.SUCCESS ∨
            t.status = TransactionStatus.FAILED
        · simp [webhookApply, h1, h2]
        · simp [webhookApply, h1, h2]

/-- C7: webhook ingestion is idempotent per delivery id — applying the
same webhook request a second time leaves the stored transaction state
identical to its state after the first application (the duplicate is
deduplicated by the stored delivery id, or the request short-circuits
before touching the store both times). -/
theorem webhook_idempotent :
    ∀ (secret : Option String) (req : WebhookRequest) (txn : Option Transaction)
      (now1 now2 : Int),
      (handleIacafeWebhook secret req
          (handleIacafeWebhook secret req txn now1).2 now2).2 =
        (handleIacafeWebhook secret req txn now1).2 := by
  intro secret req txn now1 now2
  unfold handleIacafeWebhook
  cases h : webhookPreCheck secret req with
  | error code => simp
  | ok v =>
      obtain ⟨deliveryId, payload, data, requestId⟩ := v
      simpa using webhookApply_idempotent deliveryId payload data txn now1 now2

/-! ### Claim C8: terminal transactions are never reopened by webhooks -/

/-- A FAILED transaction row with a stored delivery id from an earlier
webhook. -/
def failedTxnC8 : Transaction :=
  { baseTxn with status := .FAILED, webhookDeliveryId := some "dlv_001" }

/-- A late webhook delivery reporting vendor status completed-api for
the FAILED transaction, with a fresh delivery id. -/
def lateWebhookReq : WebhookRequest :=
  { signature := some "sig", timestamp := some "1700000000",
    event := some "transaction.status_changed", deliveryId := some "dlv_002",
    rawBody := [123, 125],
    payload := some
      { event := some "transaction.status_changed",
        data := some
          { requestId := some "VECTRA_20260101_abcdef123456",
            status := some "completed-api", reference := some "iacafe_ref",
            errorMessage := none } } }

/-- C8: a transaction that has reached SUCCESS or FAILED is never moved
by a later webhook delivery — the stored row is returned unchanged on
every path; in particular a FAILED transaction receiving a
completed-api webhook stays FAILED and the delivery is acknowledged
with 200. -/
theorem webhook_terminal_guard :
    (∀ (secret : Option String) (req : WebhookRequest) (t : Transaction) (now : Int),
      t.status = TransactionStatus.SUCCESS ∨ t.status = TransactionStatus.FAILED →
      (handleIacafeWebhook secret req (some t) now).2 = some t) ∧
    handleIacafeWebhook none lateWebhookReq (some failedTxnC8) 50 =
      (200, some failedTxnC8) := by
  constructor
  · intro secret req t now ht
    unfold handleIacafeWebhook
    cases h : webhookPreCheck secret req with
    | error code => simp
    | ok v =>
        obtain ⟨deliveryId, payload, data, requestId⟩ := v
        by_cases h1 : t.webhookDeliveryId = some deliveryId
        · simp [webhookApply, h1]
        · simp [webhookApply, h1, ht]
  · decide

/-- Concrete instance of the universally quantified part of C8. -/
theorem webhook_terminal_guard_witness :
    (handleIacafeWebhook none lateWebhookReq (some failedTxnC8) 77).2 =
      some failedTxnC8 :=
  webhook_terminal_guard.1 none lateWebhookReq failedTxnC8 77 (Or.inr rfl)


/-! ### Claim C6: webhook signature verification -/

/-- C6: whenever a shared secret is configured and the supplied
signature differs from the hexdigest of HMAC-SHA256 over the byte
string `timestamp + "." + rawBody` under the secret, ingestion answers
401 and the stored transaction is unchanged, whatever the rest of the
request, the store, or the clock. -/
theorem webhook_bad_signature_rejected :
    ∀ (sec sig ts ev dl : String) (rawBody : List Nat)
      (payload : Option WebhookPayload) (txn : Option Transaction) (now : Int),
      sig ≠ "" → ts ≠ "" → ev ≠ "" → dl ≠ "" →
      sig ≠ hexOfBytes (hmacSha256 (utf8Bytes sec) (utf8Bytes ts ++ [46] ++ rawBody)) →
      handleIacafeWebhook (some sec)
          ⟨some sig, some ts, some ev, some dl, rawBody, payload⟩ txn now =
        (401, txn) := by
  intro sec sig ts ev dl rawBody payload txn now hsig hts hev hdl hne
  have hverify : verifyWebhookSignature ts sig rawBody sec = false := by
    simp only [verifyWebhookSignature, beq_eq_false_iff_ne, ne_eq]
    exact fun h => hne h.symm
  simp [handleIacafeWebhook, webhookPreCheck, hsig, hts, hev, hdl, hverify]

set_option maxRecDepth 40000 in
/-- Concrete instance of C6: a wrong signature on a signed webhook is
rejected with 401 and no state change (the expected hexdigest is
evaluated in full). -/
theorem webhook_bad_signature_rejected_witness :
    handleIacafeWebhook (some "whsec_test")
        ⟨some "deadbeef", some "1700000000", some "transaction.status_changed",
         some "dlv_001", [123, 125], none⟩ (some baseTxn) 0 =
      (401, some baseTxn) :=
  webhook_bad_signature_rejected "whsec_test" "deadbeef" "1700000000"
    "transaction.status_changed" "dlv_001" [123, 125] none (some baseTxn) 0
    (by decide) (by decide) (by decide) (by decide) (by decide)

end Vectra
